import Mathlib

/-!
Verification of the velocity-calculation core of the Velociraptor repository
(`src/composables/useVelocityCalculator.ts`).

Numbers are modelled as rationals (`ℚ`); `Math.floor` is `Int.floor`;
JavaScript `null` / absent values are `Option`.  Only the fields of
`Sprint` and `Team` that the calculator reads are modelled (the identifier
and timestamp fields play no role in any computation here).
-/

/-- Sprint record: the numeric snapshot fields read by the calculator
(`pointsCompleted`, `leaveDays`, `sprintLengthDays`, `developerCount`). -/
structure Sprint where
  pointsCompleted : ℚ
  leaveDays : ℚ
  sprintLengthDays : ℚ
  developerCount : ℚ
deriving Repr, DecidableEq

/-- Team configuration: the fields read by the calculator
(`developerCount`, `sprintLengthDays`, optional `baselineVelocity`). -/
structure Team where
  developerCount : ℚ
  sprintLengthDays : ℚ
  baselineVelocity : Option ℚ
deriving Repr, DecidableEq

/-- Result of sprint planning calculation (`SprintPlanningResult`).
`recommendedPoints` and `fullCapacityPoints` are produced by `Math.floor`,
hence integers. -/
structure SprintPlanningResult where
  recommendedPoints : ℤ
  fullCapacityPoints : ℤ
  comparisonDelta : ℤ
  capacityPercentage : ℚ
  availableDays : ℚ
deriving Repr, DecidableEq

/-- Result of velocity calculations across sprint history
(`VelocityCalculationResult`). -/
structure VelocityCalculationResult where
  averageVelocityPerDay : Option ℚ
  dataPointCount : ℕ
  includesBaseline : Bool
  velocityDataPoints : List ℚ
deriving Repr, DecidableEq

/-- Embedding of `calculateSprintVelocityPerDay`: velocity per day for a
single sprint, `null` when `availableDays < 1`. -/
def calculateSprintVelocityPerDay (sprint : Sprint) : Option ℚ :=
  let equivalentLeaveDays := sprint.leaveDays / sprint.developerCount
  let availableDays := sprint.sprintLengthDays - equivalentLeaveDays
  if availableDays < 1 then
    none
  else
    some (sprint.pointsCompleted / availableDays)

/-- Embedding of `baselineToVelocityPerDay`. -/
def baselineToVelocityPerDay (baselineVelocity sprintLengthDays : ℚ) : ℚ :=
  baselineVelocity / sprintLengthDays

/-- Embedding of `selectDataPoints`: take at most 5 sprints, append the
baseline only when it exists and fewer than 5 sprint data points were taken.
Returns the data points together with the `includesBaseline` flag. -/
def selectDataPoints (sprintVelocities : List ℚ)
    (baselineVelocityPerDay : Option ℚ) : List ℚ × Bool :=
  let sprintDataPoints := sprintVelocities.take 5
  match baselineVelocityPerDay with
  | some b =>
      if sprintDataPoints.length < 5 then
        (sprintDataPoints ++ [b], true)
      else
        (sprintDataPoints, false)
  | none => (sprintDataPoints, false)

/-- Embedding of `calculateAverageVelocity`: `null` on the empty list,
otherwise the `reduce`-sum divided by the length. -/
def calculateAverageVelocity (dataPoints : List ℚ) : Option ℚ :=
  if dataPoints.length = 0 then
    none
  else
    some ((dataPoints.foldl (fun acc val => acc + val) 0) / dataPoints.length)

/-- Embedding of `calculateSprintPlan`: planning metrics for an upcoming
sprint, `null` when `availableDays < 1`. -/
def calculateSprintPlan (averageVelocityPerDay sprintLengthDays
    developerCount expectedLeaveDays : ℚ) : Option SprintPlanningResult :=
  let equivalentLeaveDays := expectedLeaveDays / developerCount
  let availableDays := sprintLengthDays - equivalentLeaveDays
  if availableDays < 1 then
    none
  else
    some
      { recommendedPoints := ⌊averageVelocityPerDay * availableDays⌋
        fullCapacityPoints := ⌊averageVelocityPerDay * sprintLengthDays⌋
        comparisonDelta :=
          ⌊averageVelocityPerDay * availableDays⌋ -
            ⌊averageVelocityPerDay * sprintLengthDays⌋
        capacityPercentage := availableDays / sprintLengthDays * 100
        availableDays := availableDays }

/-- Embedding of the `velocityResult` computed value inside
`useVelocityCalculator`: normalize each sprint, drop the `null`s, convert
the baseline, select data points, and average them; `null` when no data
points remain. -/
def velocityResult (sprints : List Sprint) (team : Team) :
    Option VelocityCalculationResult :=
  let sprintVelocities := (sprints.map calculateSprintVelocityPerDay).filterMap id
  let baselineVelocityPerDay :=
    team.baselineVelocity.map (fun b => baselineToVelocityPerDay b team.sprintLengthDays)
  let sel := selectDataPoints sprintVelocities baselineVelocityPerDay
  if sel.1.length = 0 then
    none
  else
    some
      { averageVelocityPerDay := calculateAverageVelocity sel.1
        dataPointCount := sel.1.length
        includesBaseline := sel.2
        velocityDataPoints := sel.1 }

/-- Embedding of `calculatePlan` inside `useVelocityCalculator`: `null`
when the velocity result is `null` or carries no average, otherwise
`calculateSprintPlan` on the team's configuration. -/
def calculatePlan (sprints : List Sprint) (team : Team)
    (expectedLeaveDays : ℚ) : Option SprintPlanningResult :=
  match velocityResult sprints team with
  | none => none
  | some result =>
      match result.averageVelocityPerDay with
      | none => none
      | some avg =>
          calculateSprintPlan avg team.sprintLengthDays team.developerCount
            expectedLeaveDays

/-! ## Helper lemmas -/

/-- JavaScript `reduce((acc, val) => acc + val, 0)` is the list sum. -/
theorem foldl_add_eq_sum (l : List ℚ) :
    l.foldl (fun acc val => acc + val) 0 = l.sum := by
  simp [List.sum_eq_foldl]

/-- Eliminating a successful `calculateSprintPlan`: the guard holds and the
result is exactly the record built from `availableDays = sprintLengthDays -
expectedLeaveDays / developerCount`. -/
theorem calculateSprintPlan_eq_some (avg len dev leave : ℚ)
    (r : SprintPlanningResult) (h : calculateSprintPlan avg len dev leave = some r) :
    1 ≤ len - leave / dev ∧
    r = ⟨⌊avg * (len - leave / dev)⌋, ⌊avg * len⌋,
      ⌊avg * (len - leave / dev)⌋ - ⌊avg * len⌋,
      (len - leave / dev) / len * 100, len - leave / dev⟩ := by
  unfold calculateSprintPlan at h
  by_cases hlt : len - leave / dev < 1
  · rw [if_pos hlt] at h
    exact absurd h (by simp)
  · rw [if_neg hlt] at h
    exact ⟨not_lt.mp hlt, (Option.some_injective _ h).symm⟩

/-- Unfolding `selectDataPoints` when a baseline is supplied. -/
theorem selectDataPoints_some (vs : List ℚ) (x : ℚ) :
    selectDataPoints vs (some x) =
      if (vs.take 5).length < 5 then (vs.take 5 ++ [x], true)
      else (vs.take 5, false) := rfl

/-- Unfolding `selectDataPoints` when no baseline is supplied. -/
theorem selectDataPoints_none (vs : List ℚ) :
    selectDataPoints vs none = (vs.take 5, false) := rfl

/-! ## Claims -/

/-- C1: the normalizer computes `availableDays = sprintLengthDays -
leaveDays / developerCount` from the sprint's snapshot fields; when
`availableDays < 1` it returns `none` (no exception), otherwise
`pointsCompleted / availableDays`; `availableDays = 1` exactly is accepted
and yields a number. -/
theorem C1_normalizer_availableDays (s : Sprint) :
    (s.sprintLengthDays - s.leaveDays / s.developerCount < 1 →
      calculateSprintVelocityPerDay s = none) ∧
    (1 ≤ s.sprintLengthDays - s.leaveDays / s.developerCount →
      calculateSprintVelocityPerDay s =
        some (s.pointsCompleted /
          (s.sprintLengthDays - s.leaveDays / s.developerCount))) ∧
    (s.sprintLengthDays - s.leaveDays / s.developerCount = 1 →
      calculateSprintVelocityPerDay s = some s.pointsCompleted) := by
  unfold calculateSprintVelocityPerDay
  refine ⟨fun h => ?_, fun h => ?_, fun h => ?_⟩
  · rw [if_pos h]
  · rw [if_neg (not_lt.mpr h)]
  · rw [if_neg (not_lt.mpr h.ge), h, div_one]

/-- Witness for C1 at a concrete sprint whose `availableDays` is exactly 1:
`sprintLengthDays = 3`, `leaveDays = 4`, `developerCount = 2`. -/
theorem C1_normalizer_availableDays_witness :
    calculateSprintVelocityPerDay
      { pointsCompleted := 10, leaveDays := 4, sprintLengthDays := 3,
        developerCount := 2 } = some 10 :=
  (C1_normalizer_availableDays
    { pointsCompleted := 10, leaveDays := 4, sprintLengthDays := 3,
      developerCount := 2 }).2.2 (by norm_num)

/-- C2: the selector output never exceeds 5 elements; the baseline is
included (appended after the history values, flag `true`) exactly when a
baseline is present and fewer than 5 history values were taken; with 5 or
more usable history values the baseline is excluded regardless of its
value. -/
theorem C2_selectDataPoints_cap (vs : List ℚ) (b : Option ℚ) :
    (selectDataPoints vs b).1.length ≤ 5 ∧
    ((selectDataPoints vs b).2 = true ↔ b.isSome = true ∧ vs.length < 5) ∧
    (∀ x, b = some x → vs.length < 5 →
      (selectDataPoints vs b).1 = vs.take 5 ++ [x] ∧
        (selectDataPoints vs b).2 = true) ∧
    (5 ≤ vs.length →
      (selectDataPoints vs b).1 = vs.take 5 ∧
        (selectDataPoints vs b).2 = false) := by
  have htake : (vs.take 5).length = min 5 vs.length := List.length_take 5 vs
  cases b with
  | none =>
      rw [selectDataPoints_none]
      refine ⟨show (vs.take 5).length ≤ 5 by omega, by simp, by simp,
        fun h => ⟨rfl, rfl⟩⟩
  | some x =>
      rw [selectDataPoints_some]
      by_cases h : (vs.take 5).length < 5
      · rw [if_pos h]
        have hv : vs.length < 5 := by omega
        refine ⟨?_, by simp [hv], fun y hy hlen => ⟨?_, rfl⟩, fun hge => ?_⟩
        · simp only [List.length_append, List.length_singleton]
          omega
        · cases hy
          rfl
        · omega
      · rw [if_neg h]
        have hv : ¬ vs.length < 5 := by omega
        exact ⟨show (vs.take 5).length ≤ 5 by omega, by simp [hv],
          fun y hy hlen => absurd hlen hv, fun hge => ⟨rfl, rfl⟩⟩

/-- Witness for C2 at `vs = [1, 2, 3]`, baseline `some 7`: output is
`[1, 2, 3, 7]` with the baseline flag set and length 4 ≤ 5. -/
theorem C2_selectDataPoints_cap_witness :
    (selectDataPoints [1, 2, 3] (some 7)).1 = [1, 2, 3, 7] ∧
      (selectDataPoints [1, 2, 3] (some 7)).2 = true :=
  (C2_selectDataPoints_cap [1, 2, 3] (some 7)).2.2.1 7 rfl (by norm_num)

/-- C3: the aggregator is the exact arithmetic mean: `none` on `[]`
(distinct from `some 0`, no error), `some x` on `[x]`, exactly
`(a + b + c) / 3` on `[a, b, c]`, and in general the unweighted mean
`sum / length` of any nonempty list. -/
theorem C3_average_exact_mean :
    calculateAverageVelocity ([] : List ℚ) = none ∧
    calculateAverageVelocity ([] : List ℚ) ≠ some 0 ∧
    (∀ x : ℚ, calculateAverageVelocity [x] = some x) ∧
    (∀ a b c : ℚ, calculateAverageVelocity [a, b, c] = some ((a + b + c) / 3)) ∧
    (∀ l : List ℚ, l ≠ [] →
      calculateAverageVelocity l = some (l.sum / l.length)) := by
  refine ⟨rfl, by simp [calculateAverageVelocity], fun x => ?_,
    fun a b c => ?_, fun l hl => ?_⟩
  · simp [calculateAverageVelocity]
  · simp [calculateAverageVelocity]
  · unfold calculateAverageVelocity
    rw [if_neg (by simpa using List.length_eq_zero.not.mpr hl), foldl_add_eq_sum]

/-- Witness for C3's quantified parts at `[5]` and `[1, 2, 6]` and the
nonempty list `[2, 4]`. -/
theorem C3_average_exact_mean_witness :
    calculateAverageVelocity [(5 : ℚ)] = some 5 ∧
    calculateAverageVelocity [(1 : ℚ), 2, 6] = some 3 ∧
    calculateAverageVelocity [(2 : ℚ), 4] = some 3 := by
  refine ⟨C3_average_exact_mean.2.2.1 5, ?_, ?_⟩
  · exact (C3_average_exact_mean.2.2.2.1 1 2 6).trans (by norm_num)
  · exact (C3_average_exact_mean.2.2.2.2 [(2 : ℚ), 4] (by simp)).trans
      (by norm_num)

/-- C4: the planner returns `none` whenever `availableDays =
sprintLengthDays - expectedLeaveDays / developerCount < 1` (the same
boundary as the normalizer), never a negative or zero recommendation; and
when the aggregate throughput is itself missing, `calculatePlan` returns
`none` without further computation. -/
theorem C4_plan_invalid_leave (avg len dev leave : ℚ)
    (sprints : List Sprint) (team : Team) :
    (len - leave / dev < 1 → calculateSprintPlan avg len dev leave = none) ∧
    (velocityResult sprints team = none → calculatePlan sprints team leave = none) ∧
    (∀ r, velocityResult sprints team = some r → r.averageVelocityPerDay = none →
      calculatePlan sprints team leave = none) := by
  refine ⟨fun h => ?_, fun h => ?_, fun r hr hnone => ?_⟩
  · unfold calculateSprintPlan
    rw [if_pos h]
  · simp [calculatePlan, h]
  · simp [calculatePlan, hr, hnone]

/-- Witness for C4: leave `1` with one developer in a 1-day sprint makes
`availableDays = 0 < 1`, and an empty history with no baseline makes the
aggregate missing. -/
theorem C4_plan_invalid_leave_witness :
    calculateSprintPlan 1 1 1 1 = none ∧
    calculatePlan [] ⟨1, 1, none⟩ 3 = none :=
  ⟨(C4_plan_invalid_leave 1 1 1 1 [] ⟨1, 1, none⟩).1 (by norm_num),
   (C4_plan_invalid_leave 1 1 1 3 [] ⟨1, 1, none⟩).2.1 rfl⟩

/-- C5: on a successful plan with `0 ≤ averageVelocityPerDay`,
`1 ≤ developerCount`, `0 ≤ expectedLeaveDays`: the recommendation and
full-capacity figures are floors, the delta is their difference,
non-positive whenever leave is positive, and exactly 0 when leave is 0. -/
theorem C5_plan_delta (avg len dev leave : ℚ) (r : SprintPlanningResult)
    (havg : 0 ≤ avg) (hdev : 1 ≤ dev) (hleave : 0 ≤ leave)
    (h : calculateSprintPlan avg len dev leave = some r) :
    r.recommendedPoints = ⌊avg * (len - leave / dev)⌋ ∧
    r.fullCapacityPoints = ⌊avg * len⌋ ∧
    r.comparisonDelta = r.recommendedPoints - r.fullCapacityPoints ∧
    (0 < leave → r.comparisonDelta ≤ 0) ∧
    (leave = 0 → r.comparisonDelta = 0) := by
  obtain ⟨hge, hr⟩ := calculateSprintPlan_eq_some avg len dev leave r h
  subst hr
  refine ⟨rfl, rfl, rfl, fun hpos => ?_, fun hzero => ?_⟩
  · have hdiv : 0 ≤ leave / dev := div_nonneg hleave (by linarith)
    have hle : len - leave / dev ≤ len := by linarith
    have hfloor : ⌊avg * (len - leave / dev)⌋ ≤ ⌊avg * len⌋ :=
      Int.floor_le_floor (mul_le_mul_of_nonneg_left hle havg)
    show ⌊avg * (len - leave / dev)⌋ - ⌊avg * len⌋ ≤ 0
    omega
  · subst hzero
    show ⌊avg * (len - 0 / dev)⌋ - ⌊avg * len⌋ = 0
    rw [zero_div, sub_zero, sub_self]

/-- Witness for C5 at avg 2/day, 14-day sprint, 4 developers, 8 leave
days: the delta of the returned plan is non-positive. -/
theorem C5_plan_delta_witness :
    (SprintPlanningResult.mk 24 28 (-4) (600 / 7) 12).comparisonDelta ≤ 0 :=
  (C5_plan_delta 2 14 4 8 ⟨24, 28, -4, 600 / 7, 12⟩ (by norm_num) (by norm_num)
    (by norm_num) (by norm_num [calculateSprintPlan])).2.2.2.1 (by norm_num)

/-- C6: a record with `pointsCompleted = 0` and `availableDays ≥ 1`
normalizes to exactly `0`; the pipeline's filter keeps that `0` (only
`none` markers are dropped), so it participates in the average; and a kept
`0` strictly lowers a positive aggregate. -/
theorem C6_zero_completed (s : Sprint) (h0 : s.pointsCompleted = 0)
    (h1 : 1 ≤ s.sprintLengthDays - s.leaveDays / s.developerCount) :
    calculateSprintVelocityPerDay s = some 0 ∧
    (∀ sprints : List Sprint, s ∈ sprints →
      (0 : ℚ) ∈ (sprints.map calculateSprintVelocityPerDay).filterMap id) ∧
    (∀ l : List ℚ, 0 < l.sum → ∀ a b, calculateAverageVelocity l = some a →
      calculateAverageVelocity (l ++ [0]) = some b → b < a) := by
  have hz : calculateSprintVelocityPerDay s = some 0 := by
    unfold calculateSprintVelocityPerDay
    rw [if_neg (not_lt.mpr h1), h0, zero_div]
  refine ⟨hz, fun sprints hs => ?_, fun l hsum a b ha hb => ?_⟩
  · exact List.mem_filterMap.mpr ⟨some 0, List.mem_map.mpr ⟨s, hs, hz⟩, rfl⟩
  · have hl : l ≠ [] := by
      rintro rfl
      simp at hsum
    have hlen : 0 < l.length := List.length_pos.mpr hl
    unfold calculateAverageVelocity at ha hb
    rw [if_neg (by simpa using List.length_eq_zero.not.mpr hl),
      foldl_add_eq_sum] at ha
    rw [if_neg (by simp), foldl_add_eq_sum] at hb
    have ha' : a = l.sum / l.length := (Option.some_injective _ ha).symm
    have hb' : b = l.sum / (l.length + 1) := by
      have := (Option.some_injective _ hb).symm
      simpa using this
    rw [ha', hb']
    have hq : (0 : ℚ) < l.length := by exact_mod_cast hlen
    exact div_lt_div_of_pos_left hsum hq (by linarith)

/-- Witness for C6: a 5-day, 1-developer sprint with zero points and no
leave normalizes to `0`, and appending a `0` to the list `[3]` drops the
average from `3` to `3 / 2`. -/
theorem C6_zero_completed_witness :
    calculateSprintVelocityPerDay ⟨0, 0, 5, 1⟩ = some 0 ∧ (3 / 2 : ℚ) < 3 :=
  ⟨(C6_zero_completed ⟨0, 0, 5, 1⟩ rfl (by norm_num)).1,
   (C6_zero_completed ⟨0, 0, 5, 1⟩ rfl (by norm_num)).2.2 [3] (by simp) 3 (3 / 2)
     (by norm_num [calculateAverageVelocity])
     (by norm_num [calculateAverageVelocity])⟩

/-- C7 counterexample: at `pointsCompleted = 5`, `leaveDays = 2`,
`sprintLengthDays = 3`, `developerCount = 1` the claim's condition
`leaveDays / developerCount ≥ sprintLengthDays - 1` holds (2 ≥ 2, i.e.
`availableDays = 1`), yet normalization returns the number `5`, not the
unusable marker. -/
theorem C7_boundary_counterexample :
    (Sprint.mk 5 2 3 1).leaveDays / (Sprint.mk 5 2 3 1).developerCount ≥
      (Sprint.mk 5 2 3 1).sprintLengthDays - 1 ∧
    calculateSprintVelocityPerDay (Sprint.mk 5 2 3 1) = some 5 := by
  constructor
  · norm_num
  · norm_num [calculateSprintVelocityPerDay]

/-- C7 (amended): for all records with `leaveDays / developerCount`
STRICTLY greater than `sprintLengthDays - 1` (equivalently
`availableDays < 1`), normalization yields the unusable marker and never a
number; at equality `availableDays = 1` and a number is returned. -/
theorem C7_unusable_strict (s : Sprint)
    (h : s.sprintLengthDays - 1 < s.leaveDays / s.developerCount) :
    calculateSprintVelocityPerDay s = none := by
  unfold calculateSprintVelocityPerDay
  rw [if_pos (by linarith)]

/-- Witness for the amended C7: 3 leave days for one developer in a 3-day
sprint (`availableDays = 0`). -/
theorem C7_unusable_strict_witness :
    calculateSprintVelocityPerDay ⟨5, 3, 3, 1⟩ = none :=
  C7_unusable_strict ⟨5, 3, 3, 1⟩ (by norm_num)

/-- C8 counterexample: with a baseline present and exactly 4 usable
history values, the selector's output has 5 elements (4 history + 1
baseline), not 6. -/
theorem C8_six_elements_counterexample :
    [(1 : ℚ), 2, 3, 4].length = 4 ∧
    (selectDataPoints [(1 : ℚ), 2, 3, 4] (some 9)).1.length = 5 ∧
    (selectDataPoints [(1 : ℚ), 2, 3, 4] (some 9)).1.length ≠ 6 := by
  refine ⟨rfl, rfl, fun h => ?_⟩
  rw [show (selectDataPoints [(1 : ℚ), 2, 3, 4] (some 9)).1.length = 5 from rfl]
    at h
  exact absurd h (by norm_num)

/-- C8 (amended): whenever a baseline is present and exactly 4 usable
history values exist, the selector's output holds 5 elements (the 4
history points plus the appended baseline) and the baseline flag is set. -/
theorem C8_baseline_appended (vs : List ℚ) (b : ℚ) (h : vs.length = 4) :
    (selectDataPoints vs (some b)).1.length = 5 ∧
    (selectDataPoints vs (some b)).2 = true := by
  rw [selectDataPoints_some]
  have htake : (vs.take 5).length = 4 := by simp [List.length_take, h]
  rw [if_pos (by omega)]
  refine ⟨?_, rfl⟩
  show (vs.take 5 ++ [b]).length = 5
  simp [htake]

/-- Witness for the amended C8 at `[1, 2, 3, 4]` with baseline `9`. -/
theorem C8_baseline_appended_witness :
    (selectDataPoints [(1 : ℚ), 2, 3, 4] (some 9)).1.length = 5 :=
  (C8_baseline_appended [(1 : ℚ), 2, 3, 4] 9 rfl).1

/-- C9: at aggregate throughput 2 per day, `sprintLengthDays = 14`,
`developerCount = 4`, `expectedLeaveDays = 8` the plan is
`availableDays = 12`, `recommendedPoints = 24`, `fullCapacityPoints = 28`,
`comparisonDelta = -4`, `capacityPercentage = 600 / 7` (≈ 85.714, not
floored); and in general `capacityPercentage =
(availableDays / sprintLengthDays) * 100` on every successful plan. -/
theorem C9_plan_scenario :
    calculateSprintPlan 2 14 4 8 = some ⟨24, 28, -4, 600 / 7, 12⟩ ∧
    (∀ avg len dev leave : ℚ, ∀ r : SprintPlanningResult,
      calculateSprintPlan avg len dev leave = some r →
        r.capacityPercentage = (len - leave / dev) / len * 100) := by
  refine ⟨by norm_num [calculateSprintPlan], fun avg len dev leave r h => ?_⟩
  obtain ⟨-, hr⟩ := calculateSprintPlan_eq_some avg len dev leave r h
  rw [hr]

/-- Witness for C9's quantified part at the same concrete plan. -/
theorem C9_plan_scenario_witness :
    (SprintPlanningResult.mk 24 28 (-4) (600 / 7) 12).capacityPercentage =
      ((14 : ℚ) - 8 / 4) / 14 * 100 :=
  C9_plan_scenario.2 2 14 4 8 ⟨24, 28, -4, 600 / 7, 12⟩ C9_plan_scenario.1

/-- C10: for fixed non-negative throughput, `sprintLengthDays ≥ 1` and
`developerCount ≥ 1`, the planner is monotone in leave: more expected
leave never increases `recommendedPoints`, `availableDays` or
`capacityPercentage`. -/
theorem C10_plan_monotone_in_leave (avg len dev l1 l2 : ℚ)
    (r1 r2 : SprintPlanningResult)
    (havg : 0 ≤ avg) (hlen : 1 ≤ len) (hdev : 1 ≤ dev)
    (h0 : 0 ≤ l1) (h12 : l1 ≤ l2)
    (h1 : calculateSprintPlan avg len dev l1 = some r1)
    (h2 : calculateSprintPlan avg len dev l2 = some r2) :
    r2.recommendedPoints ≤ r1.recommendedPoints ∧
    r2.availableDays ≤ r1.availableDays ∧
    r2.capacityPercentage ≤ r1.capacityPercentage := by
  obtain ⟨hg1, hr1⟩ := calculateSprintPlan_eq_some avg len dev l1 r1 h1
  obtain ⟨hg2, hr2⟩ := calculateSprintPlan_eq_some avg len dev l2 r2 h2
  subst hr1
  subst hr2
  have hdev' : (0 : ℚ) < dev := by linarith
  have hlen' : (0 : ℚ) < len := by linarith
  have hdiv : l1 / dev ≤ l2 / dev := by gcongr
  have had : len - l2 / dev ≤ len - l1 / dev := by linarith
  refine ⟨?_, had, ?_⟩
  · exact Int.floor_le_floor (mul_le_mul_of_nonneg_left had havg)
  · show (len - l2 / dev) / len * 100 ≤ (len - l1 / dev) / len * 100
    gcongr

/-- Witness for C10: throughput 1, 10-day sprint, 2 developers, leave 0
versus leave 4 — the recommendation drops from 10 to 8. -/
theorem C10_plan_monotone_in_leave_witness :
    (SprintPlanningResult.mk 8 10 (-2) 80 8).recommendedPoints ≤
      (SprintPlanningResult.mk 10 10 0 100 10).recommendedPoints :=
  (C10_plan_monotone_in_leave 1 10 2 0 4 ⟨10, 10, 0, 100, 10⟩ ⟨8, 10, -2, 80, 8⟩
    (by norm_num) (by norm_num) (by norm_num) (by norm_num) (by norm_num)
    (by norm_num [calculateSprintPlan]) (by norm_num [calculateSprintPlan])).1
